import Mathlib

/-!
Verification of the certificate lifecycle manager and network identity
resolver of the sticker-dream repository, as a shallow embedding.

The embedded modules are `src/certs.ts` (certificate store, expiration
policy, key-material generation, lifecycle orchestration) and
`src/network.ts` (local IPv4 discovery with strict syntactic validation).
The filesystem, clock and subprocess are modelled explicitly: file accesses
become fields of an `FsState`, the clock and the generator subprocess
outcome become fields of an `Env`, and side effects are recorded in a
trace so that assertions about "no subprocess invocation" are meaningful.
-/

namespace StickerDream

/-! ## Network identity resolver (`src/network.ts`) -/

/-- One entry of `os.networkInterfaces()`: address family string,
`internal` flag, and the reported address. -/
structure NetIface where
  family : String
  internal : Bool
  address : String
deriving Repr, DecidableEq

/-- JavaScript `String.prototype.split('.')` on the character list of a
string: dot-separated groups, with empty groups kept (so `''` gives one
empty group, `'1.'` gives `['1', '']`, exactly as in JS). -/
def splitOnDot : List Char → List (List Char)
  | [] => [[]]
  | c :: rest =>
    if c = '.' then [] :: splitOnDot rest
    else
      match splitOnDot rest with
      | [] => [[c]]
      | g :: gs => (c :: g) :: gs

def ipv4Groups (ip : String) : List (List Char) :=
  splitOnDot ip.data

/-- Numeric value of a decimal digit group, as JS `Number` computes it
on the digit-only strings the regex admits. -/
def digitsVal (g : List Char) : Nat :=
  g.foldl (fun acc c => acc * 10 + (c.toNat - 48)) 0

/-- The test of the regex `^(\d{1,3}\.){3}\d{1,3}$` from `network.ts`:
exactly four dot-separated groups of one to three decimal digits. -/
def ipv4RegexTest (ip : String) : Bool :=
  let gs := ipv4Groups ip
  gs.length == 4 &&
    gs.all (fun g => decide (1 ≤ g.length) && decide (g.length ≤ 3) &&
      g.all Char.isDigit)

/-- `isValidIPv4` from `network.ts`: the regex test, then
`ip.split('.').map(Number)` with every octet in `[0, 255]`. -/
def isValidIPv4 (ip : String) : Bool :=
  ipv4RegexTest ip &&
    (ipv4Groups ip).all (fun g =>
      decide (0 ≤ digitsVal g) && decide (digitsVal g ≤ 255))

/-- The filter of the inner loop of `getLocalIP`: IPv4 family, not
internal, and strictly valid syntax. -/
def ifaceQualifies (i : NetIface) : Bool :=
  i.family == "IPv4" && !i.internal && isValidIPv4 i.address

/-- The nested loops of `getLocalIP`: walk the interface map in
enumeration order, and inside each interface walk its entries in order,
returning the first qualifying entry. -/
def findQualifying : List (String × List NetIface) → Option NetIface
  | [] => none
  | (_, entries) :: rest =>
    match entries.find? ifaceQualifies with
    | some i => some i
    | none => findQualifying rest

/-- `getLocalIP` from `src/network.ts`: first qualifying address in
enumeration order, else the loopback fallback `127.0.0.1` (with a
console warning, which is not modelled). -/
def getLocalIP (interfaces : List (String × List NetIface)) : String :=
  match findQualifying interfaces with
  | some i => i.address
  | none => "127.0.0.1"

/-! ## Certificate module constants (`src/certs.ts`) -/

/-- `CERT_DIR = path.join(process.cwd(), 'certs')`; the working
directory prefix is elided, it is a common prefix of every path. -/
def CERT_DIR : String := "certs"

def KEY_PATH : String := "certs/key.pem"

def CERT_PATH : String := "certs/cert.pem"

def CERT_VALIDITY_DAYS : Int := 365

def EXPIRATION_WARNING_DAYS : Int := 30

/-- `24 * 60 * 60 * 1000`, the `msPerDay` of `getDaysUntilExpiration`. -/
def msPerDay : Int := 24 * 60 * 60 * 1000

/-- The `CertPaths` interface. -/
structure CertPaths where
  key : String
  cert : String
deriving Repr, DecidableEq

def getCertPaths : CertPaths := { key := KEY_PATH, cert := CERT_PATH }

/-! ## Filesystem and environment model -/

/-- The part of the filesystem state `certs.ts` reads and writes:
existence of the certs directory and of the two files, the parse result
of the certificate file (`some notAfter` in epoch milliseconds when
`crypto.X509Certificate` parses it, `none` when reading or parsing
fails), and the key file's permission bits. -/
structure FsState where
  dirExists : Bool
  keyExists : Bool
  certExists : Bool
  certNotAfter : Option Int
  keyMode : Option Nat
deriving Repr, DecidableEq

/-- Ambient inputs of a call: the clock (`new Date()` in epoch
milliseconds), the address `getLocalIP` resolves, and whether the
`openssl` subprocess succeeds. -/
structure Env where
  now : Int
  localIP : String
  opensslOk : Bool
deriving Repr, DecidableEq

/-- Observable side effects, recorded in order. -/
inductive Effect where
  | mkdirCertDir
  | execFile (tool : String) (args : List String)
  | chmod (p : String) (mode : Nat)
deriving Repr, DecidableEq

/-- The typed failure thrown by `generateCerts`
(`new Error('Failed to generate certificates: ...')`). -/
inductive GenError where
  | generationFailed (msg : String)
deriving Repr, DecidableEq

/-- Result of running an operation: its outcome (normal return or
thrown failure), the filesystem state afterwards, and the effect
trace. -/
structure RunResult where
  outcome : Except GenError CertPaths
  state : FsState
  effects : List Effect
deriving Repr

def isExecEffect : Effect → Bool
  | .execFile _ _ => true
  | _ => false

def execArgsOf : Effect → Option (List String)
  | .execFile _ args => some args
  | _ => none

/-- Number of subprocess invocations in a trace. -/
def execCount (effs : List Effect) : Nat :=
  (effs.filter isExecEffect).length

/-! ## Certificate store and expiration policy (`src/certs.ts`) -/

/-- `certsExist()`: `fs.existsSync(KEY_PATH) && fs.existsSync(CERT_PATH)`. -/
def certsExist (s : FsState) : Bool :=
  s.keyExists && s.certExists

/-- `getCertExpiration()`: `null` when the certificate file is missing,
otherwise the parse result (`null` on read or parse failure). -/
def getCertExpiration (s : FsState) : Option Int :=
  if !s.certExists then none
  else s.certNotAfter

/-- `getDaysUntilExpiration()`: `-1` when `getCertExpiration` is `null`,
otherwise `Math.floor((expiration - now) / msPerDay)`; `Int.fdiv` is
floor division, matching `Math.floor` of the real division. -/
def getDaysUntilExpiration (s : FsState) (now : Int) : Int :=
  match getCertExpiration s with
  | none => -1
  | some t => Int.fdiv (t - now) msPerDay

/-- `certNeedsRenewal()`: `daysLeft < 0 || daysLeft <= EXPIRATION_WARNING_DAYS`. -/
def certNeedsRenewal (s : FsState) (now : Int) : Bool :=
  let daysLeft := getDaysUntilExpiration s now
  daysLeft < 0 || daysLeft ≤ EXPIRATION_WARNING_DAYS

/-! ## Key material generation and lifecycle (`src/certs.ts`) -/

def hostname : String := "sticker.local"

/-- The `altNames` array of `generateCerts`, joined with `','`. -/
def altNames (localIP : String) : String :=
  String.intercalate ","
    ["DNS:" ++ hostname, "DNS:localhost", "IP:127.0.0.1", "IP:" ++ localIP]

def subject : String := "/CN=" ++ hostname

/-- The discrete argument array handed to `execFileSync('openssl', args)`. -/
def opensslArgs (localIP : String) : List String :=
  ["req", "-x509",
   "-newkey", "rsa:2048",
   "-keyout", KEY_PATH,
   "-out", CERT_PATH,
   "-days", toString CERT_VALIDITY_DAYS,
   "-nodes",
   "-subj", subject,
   "-addext", "subjectAltName=" ++ altNames localIP]

/-- `generateCerts()`: create the directory when absent, invoke
`openssl` with the argument array, and on success tighten the key's
permissions to `0o600` and return the paths; a subprocess failure is
rethrown as the typed `Failed to generate certificates` error. A
successful run leaves both files present and a certificate whose
`notAfter` is `now + 365 days`, the validity `openssl` was asked for. -/
def generateCerts (env : Env) (s : FsState) : RunResult :=
  let mkdirEffs := if !s.dirExists then [Effect.mkdirCertDir] else []
  let s0 : FsState := { s with dirExists := true }
  let args := opensslArgs env.localIP
  if env.opensslOk then
    { outcome := .ok getCertPaths
      state := { s0 with
                  keyExists := true
                  certExists := true
                  certNotAfter := some (env.now + CERT_VALIDITY_DAYS * msPerDay)
                  keyMode := some 0o600 }
      effects := mkdirEffs ++ [Effect.execFile "openssl" args, Effect.chmod KEY_PATH 0o600] }
  else
    { outcome := .error (.generationFailed "Failed to generate certificates")
      state := s0
      effects := mkdirEffs ++ [Effect.execFile "openssl" args] }

/-- `ensureCerts()`: when both files exist, regenerate on
`daysLeft < 0` or `daysLeft <= EXPIRATION_WARNING_DAYS`, otherwise
return the existing paths untouched; when either file is missing,
generate directly. -/
def ensureCerts (env : Env) (s : FsState) : RunResult :=
  if certsExist s then
    let daysLeft := getDaysUntilExpiration s env.now
    if daysLeft < 0 then generateCerts env s
    else if daysLeft ≤ EXPIRATION_WARNING_DAYS then generateCerts env s
    else { outcome := .ok getCertPaths, state := s, effects := [] }
  else generateCerts env s

end StickerDream
namespace StickerDream

/-! ## Helper lemmas -/

lemma msPerDay_pos : (0 : Int) < msPerDay := by norm_num [msPerDay]

lemma fdiv_neg_of_neg {a b : Int} (ha : a < 0) (hb : 0 < b) : Int.fdiv a b < 0 := by
  rw [Int.fdiv_eq_ediv _ (le_of_lt hb)]
  exact Int.ediv_neg' ha hb

lemma fdiv_bounds (a : Int) {b : Int} (hb : 0 < b) :
    Int.fdiv a b * b ≤ a ∧ a < (Int.fdiv a b + 1) * b := by
  rw [Int.fdiv_eq_ediv _ (le_of_lt hb)]
  exact ⟨Int.ediv_mul_le a (ne_of_gt hb), Int.lt_ediv_add_one_mul_self a hb⟩

lemma ensureCerts_valid (env : Env) (s : FsState) (hex : certsExist s = true)
    (hd : EXPIRATION_WARNING_DAYS < getDaysUntilExpiration s env.now) :
    ensureCerts env s = { outcome := .ok getCertPaths, state := s, effects := [] } := by
  unfold ensureCerts
  rw [if_pos hex]
  dsimp only
  split_ifs with h1 h2
  · simp only [EXPIRATION_WARNING_DAYS] at *; omega
  · simp only [EXPIRATION_WARNING_DAYS] at *; omega
  · rfl

lemma ensureCerts_eq_generate (env : Env) (s : FsState)
    (h : certsExist s = false ∨ getDaysUntilExpiration s env.now ≤ EXPIRATION_WARNING_DAYS) :
    ensureCerts env s = generateCerts env s := by
  unfold ensureCerts
  rcases h with h | h
  · simp [h]
  · by_cases hex : certsExist s = true
    · rw [if_pos hex]
      dsimp only
      split_ifs with h1 <;> rfl
    · simp [hex]

lemma generateCerts_ok (env : Env) (s : FsState) (h : env.opensslOk = true) :
    generateCerts env s =
      { outcome := .ok getCertPaths
        state := { dirExists := true, keyExists := true, certExists := true,
                   certNotAfter := some (env.now + CERT_VALIDITY_DAYS * msPerDay),
                   keyMode := some 0o600 }
        effects := (if !s.dirExists then [Effect.mkdirCertDir] else []) ++
          [Effect.execFile "openssl" (opensslArgs env.localIP),
           Effect.chmod KEY_PATH 0o600] } := by
  unfold generateCerts
  rw [if_pos h]

lemma generateCerts_err (env : Env) (s : FsState) (h : env.opensslOk = false) :
    generateCerts env s =
      { outcome := .error (.generationFailed "Failed to generate certificates")
        state := { s with dirExists := true }
        effects := (if !s.dirExists then [Effect.mkdirCertDir] else []) ++
          [Effect.execFile "openssl" (opensslArgs env.localIP)] } := by
  unfold generateCerts
  rw [if_neg (by simp [h])]

lemma daysLeft_after_generate (env : Env) (s : FsState) (h : env.opensslOk = true) :
    getDaysUntilExpiration (generateCerts env s).state env.now = CERT_VALIDITY_DAYS := by
  rw [generateCerts_ok env s h]
  simp [getDaysUntilExpiration, getCertExpiration]
  exact Int.mul_fdiv_cancel _ (by norm_num [msPerDay])

lemma execCount_generate (env : Env) (s : FsState) :
    execCount (generateCerts env s).effects = 1 := by
  cases h : env.opensslOk <;> cases hd : s.dirExists <;>
    simp [generateCerts, h, hd, execCount, isExecEffect, List.filter]

lemma findQualifying_eq (interfaces : List (String × List NetIface)) :
    findQualifying interfaces =
      ((interfaces.map Prod.snd).flatten).find? ifaceQualifies := by
  induction interfaces with
  | nil => rfl
  | cons p rest ih =>
    obtain ⟨name, entries⟩ := p
    simp only [findQualifying, List.map_cons, List.flatten_cons, List.find?_append, ih]
    cases entries.find? ifaceQualifies <;> simp [Option.or]

lemma san_string (ip : String) :
    "subjectAltName=" ++ altNames ip =
      "subjectAltName=DNS:sticker.local,DNS:localhost,IP:127.0.0.1,IP:" ++ ip := by
  simp [altNames, hostname, String.intercalate, String.intercalate.go,
    ← String.append_assoc]

lemma opensslArgs_eq (ip : String) :
    opensslArgs ip =
      ["req", "-x509", "-newkey", "rsa:2048", "-keyout", "certs/key.pem",
       "-out", "certs/cert.pem", "-days", "365", "-nodes",
       "-subj", "/CN=sticker.local", "-addext",
       "subjectAltName=DNS:sticker.local,DNS:localhost,IP:127.0.0.1,IP:" ++ ip] := by
  simp only [opensslArgs, san_string]
  rfl

/-! ## Claim theorems -/

/-- C1: `ensureCerts()` with both files present and more than 30 days left
is a pure no-op (no subprocess invocation, no file writes, no state
change) returning the pre-existing paths; with `0 ≤ daysLeft ≤ 30`, with
`daysLeft < 0`, or with an unparsable certificate it regenerates; with
either file missing it generates directly. -/
theorem ensureCerts_state_machine (env : Env) (s : FsState) :
    (certsExist s = true → EXPIRATION_WARNING_DAYS < getDaysUntilExpiration s env.now →
      ensureCerts env s = { outcome := .ok getCertPaths, state := s, effects := [] }) ∧
    (certsExist s = true → 0 ≤ getDaysUntilExpiration s env.now →
      getDaysUntilExpiration s env.now ≤ EXPIRATION_WARNING_DAYS →
      ensureCerts env s = generateCerts env s) ∧
    (certsExist s = true → getDaysUntilExpiration s env.now < 0 →
      ensureCerts env s = generateCerts env s) ∧
    (certsExist s = true → getCertExpiration s = none →
      ensureCerts env s = generateCerts env s) ∧
    (certsExist s = false → ensureCerts env s = generateCerts env s) :=
  ⟨fun hex hd => ensureCerts_valid env s hex hd,
   fun _ _ hd => ensureCerts_eq_generate env s (Or.inr hd),
   fun _ hd => ensureCerts_eq_generate env s
     (Or.inr (by simp only [EXPIRATION_WARNING_DAYS]; omega)),
   fun _ hn => ensureCerts_eq_generate env s
     (Or.inr (by simp [getDaysUntilExpiration, hn, EXPIRATION_WARNING_DAYS])),
   fun hex => ensureCerts_eq_generate env s (Or.inl hex)⟩

theorem ensureCerts_state_machine_witness :
    ensureCerts { now := 0, localIP := "192.168.1.7", opensslOk := true }
        { dirExists := true, keyExists := true, certExists := true,
          certNotAfter := some (400 * msPerDay), keyMode := some 384 } =
      { outcome := .ok getCertPaths,
        state := { dirExists := true, keyExists := true, certExists := true,
                   certNotAfter := some (400 * msPerDay), keyMode := some 384 },
        effects := [] } :=
  (ensureCerts_state_machine _ _).1 (by decide) (by decide)

/-- C2: `certNeedsRenewal()` is true iff `daysLeft < 0` or
`daysLeft ≤ 30`; more than 30 days out it is false, at exactly 30 days
it is true, and for any parsed `notAfter` in the past it is true. -/
theorem certNeedsRenewal_spec (s : FsState) (now : Int) :
    (certNeedsRenewal s now = true ↔
      (getDaysUntilExpiration s now < 0 ∨
       getDaysUntilExpiration s now ≤ EXPIRATION_WARNING_DAYS)) ∧
    (EXPIRATION_WARNING_DAYS < getDaysUntilExpiration s now →
      certNeedsRenewal s now = false) ∧
    (getDaysUntilExpiration s now = EXPIRATION_WARNING_DAYS →
      certNeedsRenewal s now = true) ∧
    (∀ t, getCertExpiration s = some t → t < now → certNeedsRenewal s now = true) := by
  refine ⟨by simp [certNeedsRenewal], ?_, ?_, ?_⟩
  · intro hd
    simp only [certNeedsRenewal, EXPIRATION_WARNING_DAYS] at *
    simp only [Bool.or_eq_false_iff, decide_eq_false_iff_not]
    omega
  · intro hd
    simp [certNeedsRenewal, hd]
  · intro t ht hlt
    have hd : getDaysUntilExpiration s now = Int.fdiv (t - now) msPerDay := by
      simp [getDaysUntilExpiration, ht]
    have hneg : Int.fdiv (t - now) msPerDay < 0 :=
      fdiv_neg_of_neg (by omega) msPerDay_pos
    simp [certNeedsRenewal, hd, hneg]

theorem certNeedsRenewal_spec_witness :
    certNeedsRenewal
      { dirExists := true, keyExists := true, certExists := true,
        certNotAfter := some (30 * msPerDay), keyMode := none } 0 = true :=
  (certNeedsRenewal_spec _ 0).2.2.1 (by decide)

/-- C3: for a readable, parsable certificate, `getDaysUntilExpiration()`
is the mathematical floor of `(notAfter - now) / msPerDay` (characterised
by the two-sided bound); for a missing or unparsable certificate it is
the sentinel `-1`, and then `certNeedsRenewal()` is true. -/
theorem getDaysUntilExpiration_floor (s : FsState) (now : Int) :
    (∀ t, getCertExpiration s = some t →
      getDaysUntilExpiration s now * msPerDay ≤ t - now ∧
      t - now < (getDaysUntilExpiration s now + 1) * msPerDay) ∧
    (getCertExpiration s = none →
      getDaysUntilExpiration s now = -1 ∧ certNeedsRenewal s now = true) ∧
    (s.certExists = false → getCertExpiration s = none) := by
  refine ⟨?_, ?_, ?_⟩
  · intro t ht
    have hd : getDaysUntilExpiration s now = Int.fdiv (t - now) msPerDay := by
      simp [getDaysUntilExpiration, ht]
    rw [hd]
    exact fdiv_bounds (t - now) msPerDay_pos
  · intro hn
    have hd : getDaysUntilExpiration s now = -1 := by
      simp [getDaysUntilExpiration, hn]
    exact ⟨hd, by simp [certNeedsRenewal, hd]⟩
  · intro hc
    simp [getCertExpiration, hc]

theorem getDaysUntilExpiration_floor_witness :
    getDaysUntilExpiration
      { dirExists := true, keyExists := true, certExists := false,
        certNotAfter := some 5, keyMode := none } 0 = -1 ∧
    certNeedsRenewal
      { dirExists := true, keyExists := true, certExists := false,
        certNotAfter := some 5, keyMode := none } 0 = true :=
  (getDaysUntilExpiration_floor _ 0).2.1 (by decide)

/-- C4: `ensureCerts()` is idempotent: when a call returns paths, an
immediately repeated call on the resulting filesystem state with the
same clock returns the same paths, and the two calls together invoke
the generation subprocess at most once. -/
theorem ensureCerts_idempotent (env : Env) (s : FsState) (p : CertPaths)
    (h : (ensureCerts env s).outcome = Except.ok p) :
    (ensureCerts env (ensureCerts env s).state).outcome = Except.ok p ∧
    p = getCertPaths ∧
    execCount (ensureCerts env s).effects +
      execCount (ensureCerts env (ensureCerts env s).state).effects ≤ 1 := by
  by_cases hex : certsExist s = true
  · by_cases hval : EXPIRATION_WARNING_DAYS < getDaysUntilExpiration s env.now
    · have e1 := ensureCerts_valid env s hex hval
      rw [e1] at h ⊢
      simp only [Except.ok.injEq] at h
      subst h
      rw [e1]
      exact ⟨rfl, rfl, by simp [execCount]⟩
    · have e1 := ensureCerts_eq_generate env s
        (Or.inr (by simp only [EXPIRATION_WARNING_DAYS] at *; omega))
      rw [e1] at h ⊢
      cases hok : env.opensslOk
      · rw [generateCerts_err env s hok] at h
        simp at h
      · have hex2 : certsExist (generateCerts env s).state = true := by
          rw [generateCerts_ok env s hok]
          rfl
        have hval2 : EXPIRATION_WARNING_DAYS <
            getDaysUntilExpiration (generateCerts env s).state env.now := by
          rw [daysLeft_after_generate env s hok]
          norm_num [EXPIRATION_WARNING_DAYS, CERT_VALIDITY_DAYS]
        have e2 := ensureCerts_valid env (generateCerts env s).state hex2 hval2
        rw [e2]
        rw [generateCerts_ok env s hok] at h
        simp only [Except.ok.injEq] at h
        subst h
        refine ⟨rfl, rfl, ?_⟩
        rw [execCount_generate env s]
        simp [execCount]
  · have e1 := ensureCerts_eq_generate env s (Or.inl (by simpa using hex))
    rw [e1] at h ⊢
    cases hok : env.opensslOk
    · rw [generateCerts_err env s hok] at h
      simp at h
    · have hex2 : certsExist (generateCerts env s).state = true := by
        rw [generateCerts_ok env s hok]
        rfl
      have hval2 : EXPIRATION_WARNING_DAYS <
          getDaysUntilExpiration (generateCerts env s).state env.now := by
        rw [daysLeft_after_generate env s hok]
        norm_num [EXPIRATION_WARNING_DAYS, CERT_VALIDITY_DAYS]
      have e2 := ensureCerts_valid env (generateCerts env s).state hex2 hval2
      rw [e2]
      rw [generateCerts_ok env s hok] at h
      simp only [Except.ok.injEq] at h
      subst h
      refine ⟨rfl, rfl, ?_⟩
      rw [execCount_generate env s]
      simp [execCount]

theorem ensureCerts_idempotent_witness :
    (ensureCerts { now := 0, localIP := "10.0.0.5", opensslOk := true }
        (ensureCerts { now := 0, localIP := "10.0.0.5", opensslOk := true }
          { dirExists := false, keyExists := false, certExists := false,
            certNotAfter := none, keyMode := none }).state).outcome =
      Except.ok getCertPaths ∧
    getCertPaths = getCertPaths ∧
    execCount (ensureCerts { now := 0, localIP := "10.0.0.5", opensslOk := true }
        { dirExists := false, keyExists := false, certExists := false,
          certNotAfter := none, keyMode := none }).effects +
      execCount (ensureCerts { now := 0, localIP := "10.0.0.5", opensslOk := true }
        (ensureCerts { now := 0, localIP := "10.0.0.5", opensslOk := true }
          { dirExists := false, keyExists := false, certExists := false,
            certNotAfter := none, keyMode := none }).state).effects ≤ 1 :=
  ensureCerts_idempotent _ _ getCertPaths (by rfl)

/-- C5: `getLocalIP()` returns the address of the first interface entry,
in enumeration order over the flattened interface map, that is IPv4,
non-internal and strictly syntactically valid; when no entry qualifies
it returns `127.0.0.1`; and every value it returns passes strict IPv4
validation. -/
theorem getLocalIP_spec (interfaces : List (String × List NetIface)) :
    isValidIPv4 (getLocalIP interfaces) = true ∧
    (∀ i, ((interfaces.map Prod.snd).flatten).find? ifaceQualifies = some i →
      getLocalIP interfaces = i.address) ∧
    (((interfaces.map Prod.snd).flatten).find? ifaceQualifies = none →
      getLocalIP interfaces = "127.0.0.1") := by
  refine ⟨?_, ?_, ?_⟩
  · unfold getLocalIP
    rw [findQualifying_eq]
    cases h : ((interfaces.map Prod.snd).flatten).find? ifaceQualifies with
    | none => decide
    | some i =>
      have hq := List.find?_some h
      simp only [ifaceQualifies, Bool.and_eq_true] at hq
      exact hq.2
  · intro i h
    unfold getLocalIP
    rw [findQualifying_eq, h]
  · intro h
    unfold getLocalIP
    rw [findQualifying_eq, h]

theorem getLocalIP_spec_witness :
    getLocalIP
      [("lo", [{ family := "IPv4", internal := true, address := "127.0.0.1" }]),
       ("en0", [{ family := "IPv6", internal := false, address := "fe80::1" },
                { family := "IPv4", internal := false, address := "192.168.1.7" }])] =
      "192.168.1.7" :=
  (getLocalIP_spec _).2.1
    { family := "IPv4", internal := false, address := "192.168.1.7" } (by decide)

/-- C6: every `generateCerts()` run performs exactly one subprocess
invocation, whose arguments are a discrete array (never a shell string,
by construction of the `execFile` effect) fixing `rsa:2048`, 365-day
validity, `-nodes` (no passphrase), subject `/CN=sticker.local`, and the
SAN list `DNS:sticker.local,DNS:localhost,IP:127.0.0.1,IP:<resolved IP>`
in exactly that order. -/
theorem generateCerts_invocation (env : Env) (s : FsState) :
    (generateCerts env s).effects.filterMap execArgsOf =
      [["req", "-x509", "-newkey", "rsa:2048", "-keyout", "certs/key.pem",
        "-out", "certs/cert.pem", "-days", "365", "-nodes",
        "-subj", "/CN=sticker.local", "-addext",
        "subjectAltName=DNS:sticker.local,DNS:localhost,IP:127.0.0.1,IP:" ++
          env.localIP]] := by
  cases hok : env.opensslOk <;> cases hd : s.dirExists <;>
    simp [generateCerts, hok, hd, execArgsOf, opensslArgs_eq]

/-- C7: after every successful generation the private key file's mode is
`0o600`: the chmod effect is emitted and the resulting mode grants no
group or other access (all low six permission bits are zero). -/
theorem generateCerts_key_permissions (env : Env) (s : FsState)
    (h : env.opensslOk = true) :
    (generateCerts env s).state.keyMode = some 0o600 ∧
    Effect.chmod KEY_PATH 0o600 ∈ (generateCerts env s).effects ∧
    (∀ m, (generateCerts env s).state.keyMode = some m → m % 64 = 0) := by
  rw [generateCerts_ok env s h]
  refine ⟨rfl, by simp, ?_⟩
  intro m hm
  simp only [Option.some.injEq] at hm
  omega

theorem generateCerts_key_permissions_witness :
    (generateCerts ⟨0, "10.0.0.5", true⟩
        ⟨false, false, false, none, none⟩).state.keyMode = some 0o600 ∧
    Effect.chmod KEY_PATH 0o600 ∈
      (generateCerts ⟨0, "10.0.0.5", true⟩
        ⟨false, false, false, none, none⟩).effects ∧
    (∀ m, (generateCerts ⟨0, "10.0.0.5", true⟩
        ⟨false, false, false, none, none⟩).state.keyMode = some m →
      m % 64 = 0) :=
  generateCerts_key_permissions _ _ (by rfl)

/-- C8: when the generation subprocess fails, `generateCerts()` yields
the typed `generationFailed` failure rather than a path result, and any
`ensureCerts()` call that reaches generation (missing files or a
renewal-triggering certificate) surfaces that same typed failure. -/
theorem generateCerts_failure_propagates (env : Env) (s : FsState)
    (h : env.opensslOk = false) :
    (∃ msg, (generateCerts env s).outcome =
      Except.error (GenError.generationFailed msg)) ∧
    (certsExist s = false ∨ certNeedsRenewal s env.now = true →
      ∃ msg, (ensureCerts env s).outcome =
        Except.error (GenError.generationFailed msg)) := by
  have e := generateCerts_err env s h
  refine ⟨⟨_, by rw [e]⟩, ?_⟩
  intro hc
  have hgen : ensureCerts env s = generateCerts env s := by
    apply ensureCerts_eq_generate
    rcases hc with hc | hc
    · exact Or.inl hc
    · right
      simp only [certNeedsRenewal, EXPIRATION_WARNING_DAYS,
        Bool.or_eq_true, decide_eq_true_eq] at hc ⊢
      omega
  rw [hgen, e]
  exact ⟨_, rfl⟩

theorem generateCerts_failure_propagates_witness :
    (∃ msg, (generateCerts ⟨0, "10.0.0.5", false⟩
        ⟨false, false, false, none, none⟩).outcome =
      Except.error (GenError.generationFailed msg)) ∧
    (certsExist ⟨false, false, false, none, none⟩ = false ∨
      certNeedsRenewal ⟨false, false, false, none, none⟩ 0 = true →
      ∃ msg, (ensureCerts ⟨0, "10.0.0.5", false⟩
          ⟨false, false, false, none, none⟩).outcome =
        Except.error (GenError.generationFailed msg)) :=
  generateCerts_failure_propagates _ _ (by rfl)

/-- C9: `certsExist()` is the conjunction of the two independent
per-path existence checks: it is true iff both the key file and the
certificate file exist, and a state with exactly one of them present is
reported as not existing. -/
theorem certsExist_conjunction (s : FsState) :
    (certsExist s = true ↔ (s.keyExists = true ∧ s.certExists = true)) ∧
    (s.keyExists ≠ s.certExists → certsExist s = false) := by
  constructor
  · simp [certsExist]
  · intro h
    cases hk : s.keyExists <;> cases hc : s.certExists <;>
      simp_all [certsExist]

theorem certsExist_conjunction_witness :
    certsExist ⟨true, true, false, none, none⟩ = false :=
  (certsExist_conjunction _).2 (by decide)

/-- C10: on states where both files exist, the inline regeneration
decision of `ensureCerts()` coincides with `certNeedsRenewal()`:
renewal needed means `ensureCerts` behaves as `generateCerts`, renewal
not needed means it is a pure no-op returning the existing paths. -/
theorem ensureCerts_matches_renewal_policy (env : Env) (s : FsState)
    (h : certsExist s = true) :
    (certNeedsRenewal s env.now = true → ensureCerts env s = generateCerts env s) ∧
    (certNeedsRenewal s env.now = false →
      ensureCerts env s = { outcome := .ok getCertPaths, state := s, effects := [] }) := by
  constructor
  · intro hr
    apply ensureCerts_eq_generate
    right
    simp only [certNeedsRenewal, EXPIRATION_WARNING_DAYS,
      Bool.or_eq_true, decide_eq_true_eq] at hr ⊢
    omega
  · intro hr
    apply ensureCerts_valid env s h
    simp only [certNeedsRenewal, EXPIRATION_WARNING_DAYS,
      Bool.or_eq_false_iff, decide_eq_false_iff_not] at hr ⊢
    omega

theorem ensureCerts_matches_renewal_policy_witness :
    ensureCerts ⟨0, "10.0.0.5", true⟩ ⟨true, true, true, some (-msPerDay), none⟩ =
      generateCerts ⟨0, "10.0.0.5", true⟩ ⟨true, true, true, some (-msPerDay), none⟩ :=
  (ensureCerts_matches_renewal_policy ⟨0, "10.0.0.5", true⟩
    ⟨true, true, true, some (-msPerDay), none⟩ (by rfl)).1 (by decide)

end StickerDream
